import Mathlib

/-!
Shallow embedding of the job-search-app chat and authentication subsystem:
the chat service (send, fetch, delete, deferred delete), the token
authentication middleware shared by the HTTP and socket transports, the
sign-out blacklist path, and the relevant slices of the User, Company,
Chat and BlackListTokens document models.
-/

namespace JobSearchApp

/-- Identifiers (Mongo ObjectId values) are modelled as naturals. -/
abbrev Id := Nat

/-- A message subdocument of the Chat schema: auto-generated subdocument id,
`body`, `senderId` (the `sentAt` default plays no role in the claims). -/
structure Message where
  mid : Nat
  body : String
  senderId : Id
deriving DecidableEq

/-- A Chat document: `senderId`, `receiverId`, ordered `messages` array. -/
structure Chat where
  senderId : Id
  receiverId : Id
  messages : List Message
deriving DecidableEq

/-- The slice of the User schema the claims touch: id, the virtual
user name source, and the soft-delete flag. -/
structure User where
  uid : Id
  username : String
  isDeleted : Bool
deriving DecidableEq

/-- The slice of the Company schema the claims touch. `cretaedBy` is the
raw-document attribute of that (misspelled) name: the schema declares
`createdBy`, and mongoose strict mode strips non-schema attributes on save,
so every document produced by the application carries `cretaedBy` absent
(`none`); the field is kept so the query written in the chat service can be
embedded as written. -/
structure Company where
  createdBy : Id
  HRs : List Id
  isDeleted : Bool
  cretaedBy : Option Id
deriving DecidableEq

/-- A Company document as `addCompanyService` builds it: `createdBy` set from
the logged-in user, `HRs` from the request body, not deleted, and no
`cretaedBy` attribute (strict mode strips unknown fields). -/
def mkCompanyDoc (creator : Id) (hrs : List Id) : Company :=
  { createdBy := creator, HRs := hrs, isDeleted := false, cretaedBy := none }

/-- A BlackListTokens document: `tokenId` (the jti) and `expierdAt`. -/
structure BlackListEntry where
  tokenId : Nat
  expierdAt : Nat
deriving DecidableEq

/-- A decoded bearer token. `sigValid` models whether `jwt.verify` succeeds
(signature and expiry check); `jti`, `subjectId` (`_id`) and `exp` are the
claims the code reads from the decoded payload. -/
structure Token where
  sigValid : Bool
  jti : Nat
  subjectId : Id
  exp : Nat
deriving DecidableEq

/-- The persistent document-store state: users, companies, chats and the
token blacklist, plus the generator for fresh message subdocument ids. -/
structure DBState where
  users : List User
  companies : List Company
  chats : List Chat
  blackList : List BlackListEntry
  nextMsgId : Nat
deriving DecidableEq

/-! ## Store queries, embedded from the Mongo calls in the source -/

/-- The `$or` filter every chat operation uses:
`[{senderId: a, receiverId: b}, {senderId: b, receiverId: a}]`. -/
def chatMatches (a b : Id) (c : Chat) : Bool :=
  (c.senderId == a && c.receiverId == b) || (c.senderId == b && c.receiverId == a)

/-- `Chat.findOne` with the pair filter: first matching document. -/
def chatFindOne (a b : Id) (chats : List Chat) : Option Chat :=
  chats.find? (chatMatches a b)

/-- Mongo `$addToSet` on the messages array: append at the end unless an
equal element is already present. -/
def addToSet (m : Message) (l : List Message) : List Message :=
  if m ∈ l then l else l ++ [m]

/-- `Chat.findOneAndUpdate` with the pair filter and
`$addToSet: {messages: m}`: updates the first matching document and returns
the pre-update document (mongoose default), leaving the rest unchanged. -/
def chatFindOneAndAddMessage (a b : Id) (m : Message) :
    List Chat → Option Chat × List Chat
  | [] => (none, [])
  | c :: cs =>
    if chatMatches a b c then
      (some c, { c with messages := addToSet m c.messages } :: cs)
    else
      let r := chatFindOneAndAddMessage a b m cs
      (r.1, c :: r.2)

/-- `Chat.findOneAndDelete` with the pair filter: removes the first matching
document and returns it. -/
def chatFindOneAndDelete (a b : Id) : List Chat → Option Chat × List Chat
  | [] => (none, [])
  | c :: cs =>
    if chatMatches a b c then (some c, cs)
    else
      let r := chatFindOneAndDelete a b cs
      (r.1, c :: r.2)

/-- `User.findById` as executed through the user schema `pre(/^find/)` hook,
which unconditionally adds `isDeleted: false` to the filter. -/
def userFindById (uid : Id) (users : List User) : Option User :=
  users.find? (fun u => u.uid == uid && u.isDeleted == false)

/-- The authorization query of `sendMessageService`, embedded as written:
`Company.findOne({$or: [{cretaedBy: id}, {HRs: id}]})`, through the company
schema `pre(/^find/)` hook adding `isDeleted: false`. A filter on an
attribute a document does not carry matches nothing, so the first branch
compares against the raw `cretaedBy` attribute. -/
def companyChatAuthFindOne (uid : Id) (companies : List Company) : Option Company :=
  companies.find? (fun c => c.isDeleted == false && (c.cretaedBy == some uid || c.HRs.contains uid))

/-! ## Token authentication -/

/-- The outcome of one run of `validateUserToken`. `ok` is acceptance with
the resolved user document and the token metadata attached by the code
(`{tokenId: jti, expierdAt: exp}`); `responseSent` is the early-return path
that sends an HTTP error response and hands the response object back to the
caller; `thrown` is a thrown exception. -/
inductive AuthOutcome where
  | ok (user : User) (tokenId : Nat) (expierdAt : Nat)
  | responseSent (status : Nat) (msg : String)
  | thrown (err : String)
deriving DecidableEq

/-- `validateUserToken(token, res)`. `resPresent` records whether the
`res` argument was supplied: the HTTP middleware passes the response object,
the socket path calls `authenticationMiddleware(token)` which forwards only
the token, so `res` is undefined there and the early-return branches throw a
TypeError instead of sending a response. -/
def validateUserToken (tk : Token) (resPresent : Bool) (s : DBState) : AuthOutcome :=
  if tk.sigValid = false then
    .thrown "JsonWebTokenError"
  else if (s.blackList.find? (fun e => e.tokenId == tk.jti)).isSome then
    (if resPresent then .responseSent 403 "Token blackklisted, please login again"
     else .thrown "TypeError: res is undefined")
  else
    match userFindById tk.subjectId s.users with
    | none =>
      if resPresent then .responseSent 403 "Please Signup"
      else .thrown "TypeError: res is undefined"
    | some u => .ok u tk.jti tk.exp

/-- What `req.loggedInUser` ends up bound to: either the resolved identity
with token metadata, or the Express response object returned by
`res.status(403).json(...)` on the early-return branches. -/
inductive LoggedInValue where
  | identity (u : User) (tokenId : Nat) (expierdAt : Nat)
  | responseObject
deriving DecidableEq

/-- The observable result of one run of the HTTP middleware wrapper:
whether `next()` was invoked, what `req.loggedInUser` was bound to, and the
responses sent on `res`. -/
structure HttpAuthResult where
  nextCalled : Bool
  loggedInUser : Option LoggedInValue
  sentResponses : List (Nat × String)
deriving DecidableEq

/-- `authenticationMiddleware()` used as Express middleware: it awaits
`validateUserToken(token, res)`, binds the return value to
`req.loggedInUser`, and calls `next()`; a thrown exception is caught and
answered with a 500 without calling `next()`. Note the early-return
branches of `validateUserToken` return the response object, so the
middleware still calls `next()` after sending the 403. -/
def authenticationMiddlewareHttp (tk : Token) (s : DBState) : HttpAuthResult :=
  match validateUserToken tk true s with
  | .ok u j e =>
      { nextCalled := true, loggedInUser := some (.identity u j e), sentResponses := [] }
  | .responseSent st m =>
      { nextCalled := true, loggedInUser := some .responseObject, sentResponses := [(st, m)] }
  | .thrown _ =>
      { nextCalled := false, loggedInUser := none,
        sentResponses := [(500, "Somthing wrong from authMiddleware")] }

/-- `authenticationMiddleware(accessToken)` as the socket call sites use it:
with a truthy first argument the function directly returns
`validateUserToken(socket)` — i.e. validates the token string with `res`
undefined. -/
def authenticationMiddlewareSocket (tk : Token) (s : DBState) : AuthOutcome :=
  validateUserToken tk false s

/-! ## Chat services -/

/-- The in-memory `socketConnection` map from user id (stringified) to
socket id, with last-writer-wins `set` semantics. -/
abbrev SocketRegistry := List (Id × Nat)

/-- `socketConnection.get(id)`. -/
def socketGet (reg : SocketRegistry) (uid : Id) : Option Nat :=
  (reg.find? (fun p => p.1 == uid)).map (fun p => p.2)

/-- The payload of the `sendMessage` socket event. The handler destructures
only `body` and `receiverId`; a client-supplied `senderId` field is carried
here to state that it is ignored. -/
structure SendPayload where
  body : String
  receiverId : Id
  senderId : Option Id
deriving DecidableEq

/-- Events emitted on the socket layer. The targeted emits carry the
socket-id lookup result at emit time (`none` when the registry holds no
binding, in which case the emit reaches no connection). -/
inductive Event where
  | errorEvent (msg : String)
  | successMessage (body : String) (chat : Option Chat)
  | receiveMessage (toSocket : Option Nat) (body : String)
  | chatDeleted (toSocket : Option Nat) (msg : String)
deriving DecidableEq

/-- Result of one `sendMessage` event: the database afterwards and the
events emitted, in order. -/
structure SendResult where
  db : DBState
  events : List Event
deriving DecidableEq

/-- The `sendMessage` listener body of `sendMessageService`: authenticate the
handshake access token (socket-style call, `res` undefined, so a failed
validation throws and the listener aborts with no effect); `findOneAndUpdate`
the chat for the pair, appending `{body, senderId: loggedInUser._id}` via
`$addToSet`; if no chat matched, consult the company authorization query and
either reject with the fixed error event or create and save a new chat; then
emit `successMessage` to the sender and `receiveMessage` toward the
receiver's registered socket. -/
def sendMessageService (tk : Token) (p : SendPayload) (reg : SocketRegistry)
    (s : DBState) : SendResult :=
  match validateUserToken tk false s with
  | .ok u _ _ =>
      let msg : Message := { mid := s.nextMsgId, body := p.body, senderId := u.uid }
      let upd := chatFindOneAndAddMessage u.uid p.receiverId msg s.chats
      match upd.1 with
      | some oldChat =>
          { db := { s with chats := upd.2, nextMsgId := s.nextMsgId + 1 },
            events := [.successMessage p.body (some oldChat),
                       .receiveMessage (socketGet reg p.receiverId) p.body] }
      | none =>
          match companyChatAuthFindOne u.uid s.companies with
          | none =>
              { db := s, events := [.errorEvent "Only Hr or Company owner start chat"] }
          | some _ =>
              let newChat : Chat :=
                { senderId := u.uid, receiverId := p.receiverId, messages := [msg] }
              { db := { s with chats := s.chats ++ [newChat], nextMsgId := s.nextMsgId + 1 },
                events := [.successMessage p.body (some newChat),
                           .receiveMessage (socketGet reg p.receiverId) p.body] }
  | _ => { db := s, events := [] }

/-- The JSON response of the chat HTTP handlers: status, message and the
`chat` field (`none` embeds the JSON `null` produced when `findOne` matched
nothing). -/
structure HttpChatResponse where
  status : Nat
  message : String
  chat : Option Chat
deriving DecidableEq

/-- `getChatServices`: `Chat.findOne` on the pair
`(req.loggedInUser._id, req.params.receiverId)` and a 201 response carrying
whatever the query returned — the chat document, or `null` when none
matched. -/
def getChatServices (userId receiverId : Id) (s : DBState) : HttpChatResponse :=
  { status := 201, message := "Chat history fetched successfully",
    chat := chatFindOne userId receiverId s.chats }

/-- `deleteChatHistoryServicve`: `Chat.findOneAndDelete` on the pair and a
201 "Chat history cleared" response. -/
def deleteChatHistoryServicve (userId receiverId : Id) (s : DBState) :
    DBState × HttpChatResponse :=
  let r := chatFindOneAndDelete userId receiverId s.chats
  ({ s with chats := r.2 },
   { status := 201, message := "Chat history cleared", chat := none })

/-! ## Sign-out -/

/-- `signOutService`: verify the access and refresh tokens, then
`insertMany` two blacklist rows `{tokenId: jti, expierdAt: exp}`. A failed
verification throws before anything is inserted. -/
def signOutService (access refresh : Token) (s : DBState) :
    DBState × Option (Nat × String) :=
  if access.sigValid && refresh.sigValid then
    ({ s with blackList := s.blackList ++
        [{ tokenId := access.jti, expierdAt := access.exp },
         { tokenId := refresh.jti, expierdAt := refresh.exp }] },
     some (201, "Logged out Successfully"))
  else (s, none)

/-! ## Deferred deletion (deleteChatAfter24Hour) -/

/-- The 24-hour delay of the `setTimeout` call, in milliseconds. -/
def deleteDelayMs : Nat := 24 * 60 * 60 * 1000

/-- A pending `setTimeout` callback armed by the `deleteChat` listener: the
absolute fire time and the pair captured in the closure
(`loggedInUser._id`, `receiverId`). -/
structure PendingDeletion where
  fireAt : Nat
  senderId : Id
  receiverId : Id
deriving DecidableEq

/-- The system state the timer flow runs over: the database, the socket
registry, the current clock (milliseconds), the armed timers, and the log of
events emitted so far. -/
structure SysState where
  db : DBState
  reg : SocketRegistry
  now : Nat
  timers : List PendingDeletion
  emitted : List Event
deriving DecidableEq

/-- The `deleteChat` listener body of `deleteChatAfter24Hour`: authenticate
the handshake token (socket-style, a failure throws and nothing is armed),
then `setTimeout` a callback for 24 hours later. Nothing is deleted and
nothing is emitted at arm time. -/
def deleteChatAfter24Hour (tk : Token) (p : SendPayload) (st : SysState) : SysState :=
  match validateUserToken tk false st.db with
  | .ok u _ _ =>
      { st with timers := st.timers ++
          [{ fireAt := st.now + deleteDelayMs, senderId := u.uid,
             receiverId := p.receiverId }] }
  | _ => st

/-- The `setTimeout` callback at fire time: `Chat.findOneAndDelete` on the
captured pair, then look up both participants in `socketConnection` and emit
`chatDeleted` toward each binding found at fire time. -/
def fireDeletion (p : PendingDeletion) (st : SysState) : SysState :=
  let r := chatFindOneAndDelete p.senderId p.receiverId st.db.chats
  { st with
    db := { st.db with chats := r.2 },
    emitted := st.emitted ++
      [.chatDeleted (socketGet st.reg p.receiverId) "Chat history deleted after 24 hours",
       .chatDeleted (socketGet st.reg p.senderId) "Chat history deleted after 24 hours"] }

/-- Advance the clock to time `t`: timers due by `t` fire (in arming order),
the rest stay armed. -/
def advanceTo (t : Nat) (st : SysState) : SysState :=
  let due := st.timers.filter (fun p => Nat.ble p.fireAt t)
  let rest := st.timers.filter (fun p => ! Nat.ble p.fireAt t)
  due.foldl (fun acc p => fireDeletion p acc) { st with now := t, timers := rest }

/-! ## Database operations as a step system -/

/-- The database-mutating operations of the modelled subsystem, used to
quantify over what can happen between two points in time. -/
inductive Op where
  | send (tk : Token) (p : SendPayload) (reg : SocketRegistry)
  | httpDelete (userId receiverId : Id)
  | timerFire (senderId receiverId : Id)
  | signOut (access refresh : Token)
deriving DecidableEq

/-- The effect of one operation on the database state. -/
def stepOp (op : Op) (s : DBState) : DBState :=
  match op with
  | .send tk p reg => (sendMessageService tk p reg s).db
  | .httpDelete a b => (deleteChatHistoryServicve a b s).1
  | .timerFire a b => { s with chats := (chatFindOneAndDelete a b s.chats).2 }
  | .signOut a r => (signOutService a r s).1

/-- Run a sequence of operations left to right. -/
def runOps (ops : List Op) (s : DBState) : DBState :=
  ops.foldl (fun s op => stepOp op s) s

/-- Every message id stored in a chat is below the fresh-id generator: the
invariant maintained by the store, under which a newly cast message
subdocument is distinct from every stored one. -/
def msgIdsBounded (s : DBState) : Prop :=
  ∀ c ∈ s.chats, ∀ m ∈ c.messages, m.mid < s.nextMsgId

/-- Fetch just the ordered message list for a pair, as `getChatServices`
exposes it (the messages array of the matched chat document, if any). -/
def fetchMessages (a b : Id) (s : DBState) : Option (List Message) :=
  (chatFindOne a b s.chats).map Chat.messages

/-! ## Concrete instances used by witnesses and counterexamples -/

def exC1Owner : User := { uid := 1, username := "owner", isDeleted := false }

def exC1State : DBState :=
  { users := [exC1Owner], companies := [mkCompanyDoc 1 []], chats := [],
    blackList := [], nextMsgId := 0 }

def exC1Token : Token := { sigValid := true, jti := 10, subjectId := 1, exp := 1000 }

def exC2User : User := { uid := 1, username := "alice", isDeleted := false }

def exC2State : DBState :=
  { users := [exC2User], companies := [], chats := [],
    blackList := [{ tokenId := 20, expierdAt := 99 }], nextMsgId := 0 }

def exC2Token : Token := { sigValid := true, jti := 20, subjectId := 1, exp := 99 }

def exC3Token : Token := { sigValid := true, jti := 5, subjectId := 1, exp := 50 }

def exC3State : DBState :=
  { users := [], companies := [], chats := [], blackList := [], nextMsgId := 0 }

def exC4Access : Token := { sigValid := true, jti := 40, subjectId := 1, exp := 400 }

def exC4Refresh : Token := { sigValid := true, jti := 41, subjectId := 1, exp := 500 }

def exC4State : DBState :=
  { users := [{ uid := 1, username := "bob", isDeleted := false }], companies := [],
    chats := [], blackList := [], nextMsgId := 0 }

def exC4Ops : List Op :=
  [.httpDelete 1 2, .send exC4Access { body := "x", receiverId := 2, senderId := none } []]

def exC5User : User := { uid := 1, username := "hr", isDeleted := false }

def exC5Chat : Chat :=
  { senderId := 1, receiverId := 2, messages := [{ mid := 0, body := "old", senderId := 2 }] }

def exC5State : DBState :=
  { users := [exC5User], companies := [], chats := [exC5Chat],
    blackList := [], nextMsgId := 1 }

def exC5Token : Token := { sigValid := true, jti := 50, subjectId := 1, exp := 77 }

def exC7Chat : Chat :=
  { senderId := 1, receiverId := 2, messages := [{ mid := 0, body := "hey", senderId := 1 }] }

def exC7DB : DBState :=
  { users := [{ uid := 1, username := "hr", isDeleted := false }], companies := [],
    chats := [exC7Chat], blackList := [], nextMsgId := 1 }

def exC7Sys : SysState :=
  { db := exC7DB, reg := [(1, 100), (2, 200)], now := 0, timers := [], emitted := [] }

def exC7Token : Token := { sigValid := true, jti := 70, subjectId := 1, exp := 700 }

def exC9State : DBState :=
  { users := [], companies := [], chats := [], blackList := [], nextMsgId := 0 }

def exC10User : User := { uid := 3, username := "ghost", isDeleted := true }

def exC10State : DBState :=
  { users := [exC10User], companies := [], chats := [], blackList := [], nextMsgId := 0 }

def exC10Token : Token := { sigValid := true, jti := 7, subjectId := 3, exp := 70 }

/-! ## Helper lemmas -/

theorem chatMatches_comm (a b : Id) (c : Chat) : chatMatches a b c = chatMatches b a c := by
  unfold chatMatches
  exact Bool.or_comm _ _

theorem chatFindOne_comm (a b : Id) (l : List Chat) :
    chatFindOne a b l = chatFindOne b a l := by
  unfold chatFindOne
  have h : chatMatches a b = chatMatches b a := funext fun c => chatMatches_comm a b c
  rw [h]

theorem chatFindOneAndAddMessage_comm (a b : Id) (m : Message) (l : List Chat) :
    chatFindOneAndAddMessage a b m l = chatFindOneAndAddMessage b a m l := by
  induction l with
  | nil => rfl
  | cons c cs ih => simp [chatFindOneAndAddMessage, chatMatches_comm a b c, ih]

theorem chatFindOneAndDelete_comm (a b : Id) (l : List Chat) :
    chatFindOneAndDelete a b l = chatFindOneAndDelete b a l := by
  induction l with
  | nil => rfl
  | cons c cs ih => simp [chatFindOneAndDelete, chatMatches_comm a b c, ih]

theorem addToSet_of_not_mem (m : Message) (l : List Message) (h : m ∉ l) :
    addToSet m l = l ++ [m] := by
  simp [addToSet, h]

theorem chatFindOneAndAddMessage_none (a b : Id) (m : Message) :
    ∀ l : List Chat, (chatFindOneAndAddMessage a b m l).1 = none →
      (chatFindOneAndAddMessage a b m l).2 = l ∧ chatFindOne a b l = none := by
  intro l
  induction l with
  | nil => intro _; exact ⟨rfl, rfl⟩
  | cons c cs ih =>
    intro h
    by_cases hc : chatMatches a b c
    · simp [chatFindOneAndAddMessage, hc] at h
    · simp only [chatFindOneAndAddMessage] at h ⊢
      rw [if_neg hc] at h ⊢
      simp only at h ⊢
      obtain ⟨h2, hfind⟩ := ih h
      refine ⟨by simp [h2], ?_⟩
      simpa [chatFindOne, List.find?_cons_of_neg _ hc] using hfind

theorem chatFindOneAndAddMessage_some (a b : Id) (m : Message) :
    ∀ (l : List Chat) (c0 : Chat), (chatFindOneAndAddMessage a b m l).1 = some c0 →
      chatFindOne a b l = some c0 ∧ chatFindOne a b (chatFindOneAndAddMessage a b m l).2
        = some { c0 with messages := addToSet m c0.messages } := by
  intro l
  induction l with
  | nil => intro c0 h; simp [chatFindOneAndAddMessage] at h
  | cons c cs ih =>
    intro c0 h
    by_cases hc : chatMatches a b c
    · simp only [chatFindOneAndAddMessage, if_pos hc] at h ⊢
      obtain rfl : c = c0 := by simpa using h
      refine ⟨by simp [chatFindOne, List.find?_cons_of_pos _ hc], ?_⟩
      have hm : chatMatches a b { c with messages := addToSet m c.messages } = true := hc
      simp [chatFindOne, List.find?_cons_of_pos _ hm]
    · simp only [chatFindOneAndAddMessage, if_neg hc] at h ⊢
      obtain ⟨hfound, hfind⟩ := ih c0 h
      refine ⟨by simpa [chatFindOne, List.find?_cons_of_neg _ hc] using hfound, ?_⟩
      simpa [chatFindOne, List.find?_cons_of_neg _ hc] using hfind

theorem chatFindOne_append_single (a b : Id) (c : Chat) :
    ∀ l : List Chat, chatFindOne a b l = none → chatMatches a b c = true →
      chatFindOne a b (l ++ [c]) = some c := by
  intro l
  induction l with
  | nil => intro _ hc; simp [chatFindOne, List.find?_cons_of_pos _ hc]
  | cons d ds ih =>
    intro h hc
    by_cases hd : chatMatches a b d
    · simp [chatFindOne, List.find?_cons_of_pos _ hd] at h
    · simp only [chatFindOne, List.find?_cons_of_neg _ hd] at h
      simpa [chatFindOne, List.cons_append, List.find?_cons_of_neg _ hd] using ih h hc

theorem fresh_msg_not_mem (s : DBState) (hB : msgIdsBounded s) (c : Chat)
    (hc : c ∈ s.chats) (bdy : String) (sid : Id) :
    ({ mid := s.nextMsgId, body := bdy, senderId := sid } : Message) ∉ c.messages := by
  intro hmem
  have := hB c hc _ hmem
  simp at this

theorem chatFindOne_after_delete (a b : Id) :
    ∀ l : List Chat, l.countP (chatMatches a b) ≤ 1 →
      chatFindOne a b (chatFindOneAndDelete a b l).2 = none := by
  intro l
  induction l with
  | nil => intro _; rfl
  | cons c cs ih =>
    intro h
    by_cases hc : chatMatches a b c
    · simp only [chatFindOneAndDelete, if_pos hc]
      rw [List.countP_cons_of_pos _ _ hc] at h
      have h0 : cs.countP (chatMatches a b) = 0 := by omega
      rw [chatFindOne, List.find?_eq_none]
      intro x hx
      have := List.countP_eq_zero.mp h0 x hx
      simpa using this
    · simp only [chatFindOneAndDelete]
      rw [if_neg hc]
      rw [List.countP_cons_of_neg _ _ hc] at h
      simpa [chatFindOne, List.find?_cons_of_neg _ hc] using ih h

/-! ## Claims -/

/-- C1: the code contradicts the claimed creation rule. The sender is the
`createdBy` creator of a live company and authenticates successfully, yet
the first send between the pair is rejected with the fixed authorization
error and persists nothing: the authorization query filters on the
misspelled attribute `cretaedBy`, which no stored company document carries,
so the creator-field half of the rule never matches. -/
theorem c1_company_owner_rejected_on_first_send :
    (∃ co ∈ exC1State.companies, co.createdBy = exC1Token.subjectId ∧ co.isDeleted = false) ∧
    validateUserToken exC1Token false exC1State
      = .ok exC1Owner exC1Token.jti exC1Token.exp ∧
    chatFindOne exC1Token.subjectId 2 exC1State.chats = none ∧
    sendMessageService exC1Token { body := "Hello", receiverId := 2, senderId := none }
        [] exC1State
      = { db := exC1State,
          events := [.errorEvent "Only Hr or Company owner start chat"] } := by
  decide

/-- C2 counterexample: for a blacklisted token the two call sites of the
shared validator decide differently — the HTTP middleware sends the 403 and
still calls `next()` so the protected handler runs, while the socket call
site throws (no response object was passed), so the decision is not the
same on both transports. -/
theorem c2_decision_differs_by_transport :
    validateUserToken exC2Token true exC2State
      ≠ validateUserToken exC2Token false exC2State ∧
    (authenticationMiddlewareHttp exC2Token exC2State).nextCalled = true ∧
    authenticationMiddlewareSocket exC2Token exC2State
      = .thrown "TypeError: res is undefined" := by
  decide

/-- C2 (amended): the same `validateUserToken` function is invoked at both
call sites, and a token is accepted — with the same resolved identity and
token metadata — on the HTTP path exactly when it is accepted on the socket
path; only the shape of rejections differs between the transports. -/
theorem c2_acceptance_agrees_across_transports (tk : Token) (s : DBState)
    (u : User) (j ex : Nat) :
    validateUserToken tk true s = .ok u j ex ↔ validateUserToken tk false s = .ok u j ex := by
  unfold validateUserToken
  by_cases h1 : tk.sigValid = false
  · simp [h1]
  · simp only [h1, if_false]
    by_cases h2 : (s.blackList.find? (fun b => b.tokenId == tk.jti)).isSome
    · simp [h2]
    · simp only [h2, if_false]
      cases h3 : userFindById tk.subjectId s.users <;> simp

/-- C3: when the presented token is blacklisted or its subject identity is
not found, the HTTP middleware sends the 403 rejection yet still invokes
`next()`, with `req.loggedInUser` bound to the response object rather than
to a resolved identity. -/
theorem c3_http_rejection_still_calls_next (tk : Token) (s : DBState)
    (hSig : tk.sigValid = true)
    (hRej : (s.blackList.find? (fun b => b.tokenId == tk.jti)).isSome = true
            ∨ userFindById tk.subjectId s.users = none) :
    (authenticationMiddlewareHttp tk s).nextCalled = true ∧
    (authenticationMiddlewareHttp tk s).loggedInUser = some .responseObject ∧
    (authenticationMiddlewareHttp tk s).sentResponses.map Prod.fst = [403] := by
  unfold authenticationMiddlewareHttp validateUserToken
  rcases hRej with hB | hU
  · simp [hSig, hB]
  · by_cases hB : (s.blackList.find? (fun b => b.tokenId == tk.jti)).isSome
    · simp [hSig, hB]
    · simp [hSig, hB, hU]

theorem c3_witness :
    exC3Token.sigValid = true ∧
    userFindById exC3Token.subjectId exC3State.users = none ∧
    (authenticationMiddlewareHttp exC3Token exC3State).nextCalled = true ∧
    (authenticationMiddlewareHttp exC3Token exC3State).loggedInUser
      = some .responseObject ∧
    (authenticationMiddlewareHttp exC3Token exC3State).sentResponses.map Prod.fst
      = [403] :=
  have h := c3_http_rejection_still_calls_next exC3Token exC3State (by decide)
    (Or.inr (by decide))
  ⟨by decide, by decide, h.1, h.2.1, h.2.2⟩

/-- C6: the participant pair is unordered for the chat operations — the
`$or` lookup matches the stored pair in either order, so fetch, append and
delete behave identically when addressed as (a, b) or as (b, a). -/
theorem c6_pair_order_irrelevant (a b : Id) :
    (∀ c, chatMatches a b c = chatMatches b a c) ∧
    (∀ s, getChatServices a b s = getChatServices b a s) ∧
    (∀ s, deleteChatHistoryServicve a b s = deleteChatHistoryServicve b a s) ∧
    (∀ m l, chatFindOneAndAddMessage a b m l = chatFindOneAndAddMessage b a m l) := by
  refine ⟨chatMatches_comm a b, ?_, ?_, ?_⟩
  · intro s
    simp [getChatServices, chatFindOne_comm a b]
  · intro s
    simp [deleteChatHistoryServicve, chatFindOneAndDelete_comm a b]
  · intro m l
    exact chatFindOneAndAddMessage_comm a b m l

/-- C8: the sender identity used for authorization and stored in the
appended message comes only from the authenticated handshake binding: two
send payloads that agree on `body` and `receiverId` but differ in a
client-supplied `senderId` field produce identical database state and
identical emitted events. -/
theorem c8_client_senderId_ignored (tk : Token) (p1 p2 : SendPayload)
    (reg : SocketRegistry) (s : DBState)
    (hb : p1.body = p2.body) (hr : p1.receiverId = p2.receiverId) :
    sendMessageService tk p1 reg s = sendMessageService tk p2 reg s := by
  cases p1
  cases p2
  cases hb
  cases hr
  rfl

theorem c8_witness :
    sendMessageService { sigValid := true, jti := 1, subjectId := 1, exp := 9 }
        { body := "hi", receiverId := 2, senderId := some 99 } []
        { users := [], companies := [], chats := [], blackList := [], nextMsgId := 0 }
      = sendMessageService { sigValid := true, jti := 1, subjectId := 1, exp := 9 }
        { body := "hi", receiverId := 2, senderId := none } []
        { users := [], companies := [], chats := [], blackList := [], nextMsgId := 0 } :=
  c8_client_senderId_ignored _ _ _ _ _ rfl rfl

/-- C9 counterexample: with no conversation between the pair, the fetch
handler responds 201 with `chat` equal to the JSON null sentinel, not with
an empty message list: no chat document (and in particular no empty-history
document) is returned. -/
theorem c9_absent_chat_gives_null_not_empty_list :
    (getChatServices 1 2 exC9State).chat = none ∧
    (getChatServices 1 2 exC9State).status = 201 ∧
    ¬ ∃ ch : Chat, (getChatServices 1 2 exC9State).chat = some ch ∧ ch.messages = [] := by
  refine ⟨rfl, rfl, ?_⟩
  rintro ⟨ch, h, -⟩
  simp [getChatServices, chatFindOne, exC9State] at h

/-- C9 (amended): for every pair with no existing conversation, the fetch
handler does not fail: it responds with status 201, the fixed success
message, and a null `chat` field — a success response, though carrying null
rather than an empty message list. -/
theorem c9_no_chat_yields_null_success (a b : Id) (s : DBState)
    (h : chatFindOne a b s.chats = none) :
    getChatServices a b s
      = { status := 201, message := "Chat history fetched successfully", chat := none } := by
  simp [getChatServices, h]

theorem c9_witness :
    chatFindOne 1 2 exC9State.chats = none ∧
    getChatServices 1 2 exC9State
      = { status := 201, message := "Chat history fetched successfully", chat := none } :=
  ⟨by decide, c9_no_chat_yields_null_success 1 2 exC9State (by decide)⟩

/-- C10: the user-schema query hook adds `isDeleted = false` to every find,
so the identity lookup for a soft-deleted user resolves to nothing and an
otherwise valid, non-revoked token for that user is rejected on the
identity-not-found path on both transports — a soft-deleted identity never
authenticates. -/
theorem c10_soft_deleted_never_authenticates (tk : Token) (s : DBState) (u : User)
    (hu : u ∈ s.users) (hdel : u.isDeleted = true)
    (hAll : ∀ v ∈ s.users, v.uid = u.uid → v.isDeleted = true)
    (hSub : tk.subjectId = u.uid)
    (hSig : tk.sigValid = true)
    (hNotBlk : (s.blackList.find? (fun b => b.tokenId == tk.jti)).isSome = false) :
    userFindById tk.subjectId s.users = none ∧
    validateUserToken tk true s = .responseSent 403 "Please Signup" ∧
    validateUserToken tk false s = .thrown "TypeError: res is undefined" := by
  have hfind : userFindById tk.subjectId s.users = none := by
    rw [userFindById, List.find?_eq_none]
    intro v hv
    by_cases hvu : v.uid = u.uid
    · have := hAll v hv hvu
      simp [this, hSub, hvu]
    · simp [hSub]
      intro hEq
      exact absurd hEq hvu
  refine ⟨hfind, ?_, ?_⟩ <;> simp [validateUserToken, hSig, hNotBlk, hfind]

theorem c10_witness :
    exC10User ∈ exC10State.users ∧
    exC10User.isDeleted = true ∧
    userFindById exC10Token.subjectId exC10State.users = none ∧
    validateUserToken exC10Token true exC10State = .responseSent 403 "Please Signup" ∧
    validateUserToken exC10Token false exC10State
      = .thrown "TypeError: res is undefined" :=
  have h := c10_soft_deleted_never_authenticates exC10Token exC10State exC10User
    (by decide) (by decide) (by decide) (by decide) (by decide) (by decide)
  ⟨by decide, by decide, h.1, h.2.1, h.2.2⟩

/-- C5: successful sends append: when the authenticated send is not
rejected (the success acknowledgment was emitted), fetching the history for
the pair afterwards returns the previous message list extended with exactly
the new message at the end — appending then fetching yields the message as
the last element, and the list stays in append order. -/
theorem c5_append_then_fetch_yields_last
    (tk : Token) (p : SendPayload) (reg : SocketRegistry) (s : DBState)
    (u : User) (j ex : Nat) (c : Option Chat)
    (hB : msgIdsBounded s)
    (hAuth : validateUserToken tk false s = .ok u j ex)
    (hSent : Event.successMessage p.body c ∈ (sendMessageService tk p reg s).events) :
    fetchMessages u.uid p.receiverId (sendMessageService tk p reg s).db
      = some (((fetchMessages u.uid p.receiverId s).getD [])
          ++ [{ mid := s.nextMsgId, body := p.body, senderId := u.uid }]) ∧
    ((fetchMessages u.uid p.receiverId (sendMessageService tk p reg s).db).getD []).getLast?
      = some { mid := s.nextMsgId, body := p.body, senderId := u.uid } := by
  have hmain : fetchMessages u.uid p.receiverId (sendMessageService tk p reg s).db
      = some (((fetchMessages u.uid p.receiverId s).getD [])
          ++ [{ mid := s.nextMsgId, body := p.body, senderId := u.uid }]) := by
    rcases hU : (chatFindOneAndAddMessage u.uid p.receiverId
        { mid := s.nextMsgId, body := p.body, senderId := u.uid } s.chats).1 with _ | c0
    · rcases hCo : companyChatAuthFindOne u.uid s.companies with _ | co
      · exfalso
        simp [sendMessageService, hAuth, hU, hCo] at hSent
      · obtain ⟨-, hNone⟩ := chatFindOneAndAddMessage_none u.uid p.receiverId
          { mid := s.nextMsgId, body := p.body, senderId := u.uid } s.chats hU
        have hNewMatch : chatMatches u.uid p.receiverId
            { senderId := u.uid, receiverId := p.receiverId,
              messages := [{ mid := s.nextMsgId, body := p.body, senderId := u.uid }] }
            = true := by
          simp [chatMatches]
        have hApp := chatFindOne_append_single u.uid p.receiverId _ s.chats hNone hNewMatch
        simp [sendMessageService, hAuth, hU, hCo, fetchMessages, hApp, hNone]
    · obtain ⟨hOld, hNewFind⟩ := chatFindOneAndAddMessage_some u.uid p.receiverId
        { mid := s.nextMsgId, body := p.body, senderId := u.uid } s.chats c0 hU
      have hmem : c0 ∈ s.chats := List.mem_of_find?_eq_some hOld
      have hfresh := fresh_msg_not_mem s hB c0 hmem p.body u.uid
      have hadd := addToSet_of_not_mem _ _ hfresh
      simp [sendMessageService, hAuth, hU, fetchMessages, hOld, hNewFind, hadd]
  refine ⟨hmain, ?_⟩
  rw [hmain]
  simp [List.getLast?_concat]

theorem c5_witness :
    msgIdsBounded exC5State ∧
    validateUserToken exC5Token false exC5State = .ok exC5User 50 77 ∧
    Event.successMessage "hi" (some exC5Chat)
      ∈ (sendMessageService exC5Token { body := "hi", receiverId := 2, senderId := none }
          [] exC5State).events ∧
    fetchMessages 1 2 (sendMessageService exC5Token
        { body := "hi", receiverId := 2, senderId := none } [] exC5State).db
      = some (((fetchMessages 1 2 exC5State).getD [])
          ++ [{ mid := 1, body := "hi", senderId := 1 }]) ∧
    ((fetchMessages 1 2 (sendMessageService exC5Token
        { body := "hi", receiverId := 2, senderId := none } [] exC5State).db).getD
        []).getLast?
      = some { mid := 1, body := "hi", senderId := 1 } :=
  have h := c5_append_then_fetch_yields_last exC5Token
    { body := "hi", receiverId := 2, senderId := none } [] exC5State exC5User 50 77
    (some exC5Chat) (by unfold msgIdsBounded; decide) (by decide) (by decide)
  ⟨by unfold msgIdsBounded; decide, by decide, by decide, h.1, h.2⟩

theorem sendMessageService_preserves_blackList (tk : Token) (p : SendPayload)
    (reg : SocketRegistry) (s : DBState) :
    (sendMessageService tk p reg s).db.blackList = s.blackList := by
  cases hA : validateUserToken tk false s with
  | ok u j ex =>
    rcases hU : (chatFindOneAndAddMessage u.uid p.receiverId
        { mid := s.nextMsgId, body := p.body, senderId := u.uid } s.chats).1 with _ | c0
    · rcases hCo : companyChatAuthFindOne u.uid s.companies with _ | co
      · simp [sendMessageService, hA, hU, hCo]
      · simp [sendMessageService, hA, hU, hCo]
    · simp [sendMessageService, hA, hU]
  | responseSent st m => simp [sendMessageService, hA]
  | thrown err => simp [sendMessageService, hA]

theorem stepOp_preserves_blackList_mem (op : Op) (s : DBState) (b : BlackListEntry)
    (h : b ∈ s.blackList) : b ∈ (stepOp op s).blackList := by
  cases op with
  | send tk p reg =>
    rw [stepOp, sendMessageService_preserves_blackList]
    exact h
  | httpDelete a c => exact h
  | timerFire a c => exact h
  | signOut a r =>
    rw [stepOp]
    unfold signOutService
    by_cases hv : (a.sigValid && r.sigValid) = true
    · simp only [hv, if_pos]
      exact List.mem_append_left _ h
    · simp only [hv, if_neg]
      exact h

theorem runOps_preserves_blackList_mem (ops : List Op) :
    ∀ (s : DBState) (b : BlackListEntry), b ∈ s.blackList → b ∈ (runOps ops s).blackList := by
  induction ops with
  | nil => intro s b h; exact h
  | cons op rest ih =>
    intro s b h
    exact ih _ _ (stepOp_preserves_blackList_mem op s b h)

/-- C4: sign-out inserts the two blacklist rows keyed by the access and
refresh token ids, nothing in the modelled subsystem ever removes them, and
every later authentication attempt presenting the signed-out access token —
whose signature and expiry are otherwise valid — takes the revoked branch:
the HTTP transport answers 403 blacklisted, the socket transport throws,
and the token is never accepted again. -/
theorem c4_signout_blacklists_token_forever
    (access refresh : Token) (s : DBState) (ops : List Op)
    (hA : access.sigValid = true) (hR : refresh.sigValid = true) :
    ({ tokenId := access.jti, expierdAt := access.exp } : BlackListEntry)
        ∈ (runOps ops (signOutService access refresh s).1).blackList ∧
    ({ tokenId := refresh.jti, expierdAt := refresh.exp } : BlackListEntry)
        ∈ (runOps ops (signOutService access refresh s).1).blackList ∧
    validateUserToken access true (runOps ops (signOutService access refresh s).1)
      = .responseSent 403 "Token blackklisted, please login again" ∧
    validateUserToken access false (runOps ops (signOutService access refresh s).1)
      = .thrown "TypeError: res is undefined" ∧
    (∀ (r : Bool) (u : User) (j ex : Nat),
      validateUserToken access r (runOps ops (signOutService access refresh s).1)
        ≠ .ok u j ex) := by
  have hsign : (signOutService access refresh s).1.blackList
      = s.blackList ++ [{ tokenId := access.jti, expierdAt := access.exp },
                        { tokenId := refresh.jti, expierdAt := refresh.exp }] := by
    simp [signOutService, hA, hR]
  have hmemA : ({ tokenId := access.jti, expierdAt := access.exp } : BlackListEntry)
      ∈ (signOutService access refresh s).1.blackList := by
    rw [hsign]; simp
  have hmemR : ({ tokenId := refresh.jti, expierdAt := refresh.exp } : BlackListEntry)
      ∈ (signOutService access refresh s).1.blackList := by
    rw [hsign]; simp
  have hA2 := runOps_preserves_blackList_mem ops _ _ hmemA
  have hR2 := runOps_preserves_blackList_mem ops _ _ hmemR
  have hSome : ((runOps ops (signOutService access refresh s).1).blackList.find?
      (fun b => b.tokenId == access.jti)).isSome = true := by
    rw [List.find?_isSome]
    exact ⟨_, hA2, by simp⟩
  refine ⟨hA2, hR2, ?_, ?_, ?_⟩
  · simp [validateUserToken, hA, hSome]
  · simp [validateUserToken, hA, hSome]
  · intro r u j ex
    cases r <;> simp [validateUserToken, hA, hSome]

theorem c4_witness :
    exC4Access.sigValid = true ∧
    ({ tokenId := 40, expierdAt := 400 } : BlackListEntry)
        ∈ (runOps exC4Ops (signOutService exC4Access exC4Refresh exC4State).1).blackList ∧
    validateUserToken exC4Access true
        (runOps exC4Ops (signOutService exC4Access exC4Refresh exC4State).1)
      = .responseSent 403 "Token blackklisted, please login again" ∧
    validateUserToken exC4Access true
        (runOps exC4Ops (signOutService exC4Access exC4Refresh exC4State).1)
      ≠ .ok { uid := 1, username := "bob", isDeleted := false } 40 400 :=
  have h := c4_signout_blacklists_token_forever exC4Access exC4Refresh exC4State exC4Ops
    rfl rfl
  ⟨rfl, h.1, h.2.2.1, h.2.2.2.2 true _ 40 400⟩

/-- C7: an authenticated schedule-deletion request arms a single timer for
exactly 24 hours. With no other activity, at every time strictly before the
delay fires the database — and in particular the conversation for the pair —
is unchanged; at the fire time the conversation has been deleted and the
fixed deletion notification is emitted toward both participants' connection
bindings as they stand at fire time. -/
theorem c7_deferred_deletion_after_24h
    (tk : Token) (p : SendPayload) (st : SysState) (u : User) (j ex : Nat) (c : Chat)
    (hAuth : validateUserToken tk false st.db = .ok u j ex)
    (hTimers : st.timers = [])
    (hChat : chatFindOne u.uid p.receiverId st.db.chats = some c)
    (hUniq : st.db.chats.countP (chatMatches u.uid p.receiverId) ≤ 1) :
    (∀ t, t < st.now + deleteDelayMs →
      (advanceTo t (deleteChatAfter24Hour tk p st)).db = st.db ∧
      chatFindOne u.uid p.receiverId
        (advanceTo t (deleteChatAfter24Hour tk p st)).db.chats = some c) ∧
    chatFindOne u.uid p.receiverId
        (advanceTo (st.now + deleteDelayMs) (deleteChatAfter24Hour tk p st)).db.chats
      = none ∧
    (advanceTo (st.now + deleteDelayMs) (deleteChatAfter24Hour tk p st)).emitted
      = st.emitted ++
        [.chatDeleted (socketGet st.reg p.receiverId) "Chat history deleted after 24 hours",
         .chatDeleted (socketGet st.reg u.uid) "Chat history deleted after 24 hours"] := by
  have hArm : deleteChatAfter24Hour tk p st
      = { st with timers := [{ fireAt := st.now + deleteDelayMs, senderId := u.uid,
                               receiverId := p.receiverId }] } := by
    simp [deleteChatAfter24Hour, hAuth, hTimers]
  have hbleT : Nat.ble (st.now + deleteDelayMs) (st.now + deleteDelayMs) = true :=
    Nat.ble_self_eq_true _
  refine ⟨?_, ?_, ?_⟩
  · intro t ht
    have hble : Nat.ble (st.now + deleteDelayMs) t = false := by
      cases hb : Nat.ble (st.now + deleteDelayMs) t
      · rfl
      · exact absurd (Nat.le_of_ble_eq_true hb) (by omega)
    rw [hArm]
    constructor
    · simp [advanceTo, hble]
    · simp [advanceTo, hble]
      exact hChat
  · rw [hArm]
    simp [advanceTo, hbleT, fireDeletion]
    exact chatFindOne_after_delete u.uid p.receiverId st.db.chats hUniq
  · rw [hArm]
    simp [advanceTo, hbleT, fireDeletion]

theorem c7_witness :
    validateUserToken exC7Token false exC7Sys.db
      = .ok { uid := 1, username := "hr", isDeleted := false } 70 700 ∧
    chatFindOne 1 2 exC7Sys.db.chats = some exC7Chat ∧
    (advanceTo 86340000 (deleteChatAfter24Hour exC7Token
        { body := "bye", receiverId := 2, senderId := none } exC7Sys)).db = exC7Sys.db ∧
    chatFindOne 1 2 (advanceTo 86340000 (deleteChatAfter24Hour exC7Token
        { body := "bye", receiverId := 2, senderId := none } exC7Sys)).db.chats
      = some exC7Chat ∧
    chatFindOne 1 2 (advanceTo 86400000 (deleteChatAfter24Hour exC7Token
        { body := "bye", receiverId := 2, senderId := none } exC7Sys)).db.chats = none ∧
    (advanceTo 86400000 (deleteChatAfter24Hour exC7Token
        { body := "bye", receiverId := 2, senderId := none } exC7Sys)).emitted
      = [.chatDeleted (some 200) "Chat history deleted after 24 hours",
         .chatDeleted (some 100) "Chat history deleted after 24 hours"] :=
  have h := c7_deferred_deletion_after_24h exC7Token
    { body := "bye", receiverId := 2, senderId := none } exC7Sys
    { uid := 1, username := "hr", isDeleted := false } 70 700 exC7Chat
    (by decide) rfl (by decide) (by decide)
  have hinst := h.1 86340000 (by decide)
  ⟨by decide, by decide, hinst.1, hinst.2, h.2.1, h.2.2⟩

end JobSearchApp

